import Mathlib

/-!
# Verification of the Telegram plan bot core

Shallow embedding of the bot's core subsystems, translated from the Python
source:

* `src/core/date_parser.py` — the natural-language date resolver;
* `src/core/state_machine.py` — the task lifecycle state machine;
* `src/db/database.py` — the record store (modelled as in-memory state);
* `src/bot/callbacks.py` — the button-callback handler with its
  duplicate-click idempotency gate;
* `src/core/scheduler.py` and `main.py` — per-user job rebuilding and the
  startup makeup-review sweep.

Calendar dates are represented by their proleptic-Gregorian ordinal
(`date.toordinal()` in Python: day 1 = 0001-01-01), matching the arithmetic
the source performs via `datetime` + `timedelta`.
-/

set_option maxRecDepth 400000
set_option maxHeartbeats 1000000

namespace PlanBot

/-! ## Calendar arithmetic (embedding of Python `datetime.date`) -/

/-- Leap year test, as in the Gregorian calendar used by `datetime`. -/
def isLeap (y : Nat) : Bool :=
  (y % 4 == 0 && y % 100 != 0) || y % 400 == 0

/-- Number of days in month `m` of year `y` (months are 1-based). -/
def daysInMonth (y m : Nat) : Nat :=
  if m = 2 then (if isLeap y then 29 else 28)
  else if m = 4 ∨ m = 6 ∨ m = 9 ∨ m = 11 then 30
  else 31

/-- Number of days in year `y`. -/
def daysInYear (y : Nat) : Nat :=
  if isLeap y then 366 else 365

/-- Days in all years strictly before year `y` (CPython `_days_before_year`). -/
def daysBeforeYear (y : Nat) : Nat :=
  365 * (y - 1) + (y - 1) / 4 - (y - 1) / 100 + (y - 1) / 400

/-- Days in year `y` strictly before month `m` (CPython `_days_before_month`). -/
def daysBeforeMonth (y m : Nat) : Nat :=
  (match m with
   | 1 => 0 | 2 => 31 | 3 => 59 | 4 => 90 | 5 => 120 | 6 => 151
   | 7 => 181 | 8 => 212 | 9 => 243 | 10 => 273 | 11 => 304 | _ => 334)
  + (if 2 < m ∧ isLeap y then 1 else 0)

/-- `date(y, m, d).toordinal()`: days since 0001-01-01, that date being day 1. -/
def toOrdinal (y m d : Nat) : Nat :=
  daysBeforeYear y + daysBeforeMonth y m + d

/-- Largest ordinal representable by `datetime.date` (9999-12-31). -/
def maxOrdinal : Nat := 3652059

/-- `datetime.weekday()` of the date with ordinal `n`: Monday = 0 … Sunday = 6
(ordinal 1, 0001-01-01, is a Monday). -/
def pyWeekday (n : Nat) : Nat := (n - 1) % 7

/-- Year search loop of ordinal-to-date conversion: starting at year `y` with
`n` whole days remaining (0-based day of what is left), consume year lengths
until fewer than a full year remains.  Fuel-based so that it reduces
definitionally; callers supply fuel ≥ the number of years crossed. -/
def yearLoop : Nat → Nat → Nat → Nat × Nat
  | 0, y, n => (y, n)
  | fuel + 1, y, n =>
      if n < daysInYear y then (y, n) else yearLoop fuel (y + 1) (n - daysInYear y)

/-- Split a 0-based day-of-year `doy` of year `y` into (month, 1-based day),
by the cumulative month-length table: the month is the greatest `m` with
`daysBeforeMonth y m ≤ doy`. -/
def monthFromDoy (y doy : Nat) : Nat × Nat :=
  if doy < daysBeforeMonth y 2 then (1, doy + 1)
  else if doy < daysBeforeMonth y 3 then (2, doy + 1 - daysBeforeMonth y 2)
  else if doy < daysBeforeMonth y 4 then (3, doy + 1 - daysBeforeMonth y 3)
  else if doy < daysBeforeMonth y 5 then (4, doy + 1 - daysBeforeMonth y 4)
  else if doy < daysBeforeMonth y 6 then (5, doy + 1 - daysBeforeMonth y 5)
  else if doy < daysBeforeMonth y 7 then (6, doy + 1 - daysBeforeMonth y 6)
  else if doy < daysBeforeMonth y 8 then (7, doy + 1 - daysBeforeMonth y 7)
  else if doy < daysBeforeMonth y 9 then (8, doy + 1 - daysBeforeMonth y 8)
  else if doy < daysBeforeMonth y 10 then (9, doy + 1 - daysBeforeMonth y 9)
  else if doy < daysBeforeMonth y 11 then (10, doy + 1 - daysBeforeMonth y 10)
  else if doy < daysBeforeMonth y 12 then (11, doy + 1 - daysBeforeMonth y 11)
  else (12, doy + 1 - daysBeforeMonth y 12)

/-- `date.fromordinal(n)` as a (year, month, day) triple. -/
def fromOrdinal (n : Nat) : Nat × Nat × Nat :=
  let (y, doy) := yearLoop n 1 (n - 1)
  let (m, d) := monthFromDoy y doy
  (y, m, d)

/-! ## Decimal digits and date formatting -/

/-- The character for decimal digit `k` (`k < 10`). -/
def toDigit (k : Nat) : Char := Char.ofNat (48 + k)

/-- Is `c` an ASCII decimal digit?  (Models `\d` of Python regexes; the
non-ASCII Unicode decimal digits that `\d` also accepts are out of scope.) -/
def isDigitC (c : Char) : Bool := 48 ≤ c.toNat && c.toNat ≤ 57

/-- Numeric value of a digit character. -/
def dval (c : Char) : Nat := c.toNat - 48

/-- Decimal digits of `n ≥ 10000`, most significant first; fuel-based helper
for `natDigits` (any fuel > number of digits gives the full rendering). -/
def digitsGo : Nat → Nat → List Char
  | 0, n => [toDigit n]
  | fuel + 1, n =>
      if n < 10 then [toDigit n] else digitsGo fuel (n / 10) ++ [toDigit (n % 10)]

/-- Decimal digits of `n`, most significant first (`str(n)` in Python).
Spelled out per digit count for numbers below 10000 — the range every
`datetime` year lies in — and by the general loop beyond. -/
def natDigits (n : Nat) : List Char :=
  if n < 10 then [toDigit n]
  else if n < 100 then [toDigit (n / 10), toDigit (n % 10)]
  else if n < 1000 then [toDigit (n / 100), toDigit (n / 10 % 10), toDigit (n % 10)]
  else if n < 10000 then
    [toDigit (n / 1000), toDigit (n / 100 % 10), toDigit (n / 10 % 10), toDigit (n % 10)]
  else digitsGo n n

/-- Two-digit zero-padded rendering (`"%02d"`) of `n < 100`. -/
def pad2 (n : Nat) : List Char := [toDigit (n / 10), toDigit (n % 10)]

/-- `f"{year}-{month:02d}-{day:02d}"` with the year rendered unpadded, as
`str`/`strftime('%Y-%m-%d')` render it on the reference platform. -/
def fmtDate (y m d : Nat) : List Char :=
  natDigits y ++ '-' :: (pad2 m ++ '-' :: pad2 d)

/-- `datetime.strftime('%Y-%m-%d')` applied to the date with ordinal `n`. -/
def strftimeYmd (n : Nat) : List Char :=
  let (y, m, d) := fromOrdinal n
  fmtDate y m d

/-- Four-digit zero-padded year, as produced when the year component comes
from a matched `\d{4}` group string. -/
def pad4 (n : Nat) : List Char :=
  [toDigit (n / 1000), toDigit (n / 100 % 10), toDigit (n / 10 % 10), toDigit (n % 10)]

/-- `f"{year}-{month:02d}-{day:02d}"` where the year is the matched 4-digit
group (hence rendered with exactly four digits). -/
def fmtDateY4 (y m d : Nat) : List Char :=
  pad4 y ++ '-' :: (pad2 m ++ '-' :: pad2 d)

/-! ## Regex matchers of `date_parser.py`

Each Python `re.search` is embedded as a scan over match positions, with the
pattern's greedy-then-backtrack behaviour resolved per position.  `\d` is
modelled as an ASCII digit. -/

/-- Match `(\d{1,2})` greedily at the head (last group of a pattern, nothing
following it): two digits if available, else one. -/
def d2 : List Char → Option Nat
  | a :: b :: _ =>
      if isDigitC a then
        some (if isDigitC b then 10 * dval a + dval b else dval a)
      else none
  | [a] => if isDigitC a then some (dval a) else none
  | [] => none

/-- Match `(\d{1,2})(?!\d)` at the head: greedy two digits, backtracking to
one, but the digit run must not be followed by another digit. -/
def d2la : List Char → Option Nat
  | a :: b :: rest =>
      if isDigitC a then
        if isDigitC b then
          match rest with
          | c :: _ => if isDigitC c then none else some (10 * dval a + dval b)
          | [] => some (10 * dval a + dval b)
        else some (dval a)
      else none
  | [a] => if isDigitC a then some (dval a) else none
  | [] => none

/-- Match `(\d{1,2})` followed by the literal `sep` at the head, with Python's
backtracking (two digits then `sep`, else one digit then `sep`); returns the
value and the remainder after `sep`. -/
def mSep (sep : Char) : List Char → Option (Nat × List Char)
  | a :: b :: rest =>
      if isDigitC a then
        if isDigitC b then
          match rest with
          | c :: rest2 => if c == sep then some (10 * dval a + dval b, rest2) else none
          | [] => none
        else if b == sep then some (dval a, rest) else none
      else none
  | _ => none

/-- Match `(\d{4})-(\d{1,2})-(\d{1,2})` at the head. -/
def matchYMDAt : List Char → Option (Nat × Nat × Nat)
  | a :: b :: c :: d :: e :: rest =>
      if isDigitC a && isDigitC b && isDigitC c && isDigitC d && e == '-' then
        match mSep '-' rest with
        | some (m, rest2) =>
            match d2 rest2 with
            | some dd => some (1000 * dval a + 100 * dval b + 10 * dval c + dval d, m, dd)
            | none => none
        | none => none
      else none
  | _ => none

/-- Match `(\d{1,2})-(\d{1,2})(?!\d)` at the head. -/
def matchMDAt (cs : List Char) : Option (Nat × Nat) :=
  match mSep '-' cs with
  | some (m, rest) => (d2la rest).map fun d => (m, d)
  | none => none

/-- Match `(\d{1,2})sep(\d{1,2})` at the head (the `MM/DD` and `MM.DD`
patterns, which carry no lookahead). -/
def matchSepAt (sep : Char) (cs : List Char) : Option (Nat × Nat) :=
  match mSep sep cs with
  | some (m, rest) => (d2 rest).map fun d => (m, d)
  | none => none

/-- Match `\+(\d+)x` (case-insensitive suffix `x`) at the head: a `+`, a
maximal nonempty digit run, then the suffix letter. -/
def matchPlusAt (lo hi : Char) : List Char → Option Nat
  | '+' :: rest =>
      let ds := rest.takeWhile isDigitC
      if ds.isEmpty then none
      else
        match rest.drop ds.length with
        | c :: _ =>
            if c == lo || c == hi then some (ds.foldl (fun acc c => 10 * acc + dval c) 0)
            else none
        | [] => none
  | _ => none

/-- `re.search`: try the matcher at each position, leftmost first. -/
def searchPos {α : Type} (f : List Char → Option α) : List Char → Option α
  | [] => none
  | c :: rest =>
      match f (c :: rest) with
      | some r => some r
      | none => searchPos f rest

/-- Substring containment (Python's `needle in text`). -/
def containsSub (needle : List Char) : List Char → Bool
  | [] => needle.isEmpty
  | c :: rest => needle.isPrefixOf (c :: rest) || containsSub needle rest

/-! ## Keyword tables of `constants.py` -/

/-- `WEEKDAY_KEYWORDS`, in the source dict's insertion (= iteration) order. -/
def WEEKDAY_KEYWORDS : List (List Char × Nat) :=
  [(['周', '一'], 0), (['星', '期', '一'], 0), (['礼', '拜', '一'], 0),
   (['周', '二'], 1), (['星', '期', '二'], 1), (['礼', '拜', '二'], 1),
   (['周', '三'], 2), (['星', '期', '三'], 2), (['礼', '拜', '三'], 2),
   (['周', '四'], 3), (['星', '期', '四'], 3), (['礼', '拜', '四'], 3),
   (['周', '五'], 4), (['星', '期', '五'], 4), (['礼', '拜', '五'], 4),
   (['周', '六'], 5), (['星', '期', '六'], 5), (['礼', '拜', '六'], 5),
   (['周', '日'], 6), (['星', '期', '日'], 6), (['礼', '拜', '日'], 6),
   (['周', '天'], 6), (['星', '期', '天'], 6), (['礼', '拜', '天'], 6)]

def DATE_KEYWORD_TODAY : List (List Char) := [['今', '天'], ['今', '日']]

def DATE_KEYWORD_TOMORROW : List (List Char) := [['明', '天'], ['明', '日']]

def DATE_KEYWORD_DAY_AFTER_TOMORROW : List (List Char) := [['后', '天']]

/-- `keyword[-1]`: the final character of a (nonempty) keyword. -/
def lastChar (l : List Char) : Char := l.getLastD ' '

/-! ## The resolver (`DateParser.parse_date` and helpers) -/

/-- `_get_next_weekday`: next occurrence of `target` strictly after `today`
(`days_ahead = target - current`; if ≤ 0, add 7). -/
def get_next_weekday (today target : Nat) : Nat :=
  let cw := pyWeekday today
  let da : Int := (target : Int) - (cw : Int)
  let da : Int := if da ≤ 0 then da + 7 else da
  today + da.toNat

/-- `_get_next_week_weekday`: the named weekday of the week after the
reference week (`days_ahead = (7 - current_weekday) + target_weekday`). -/
def get_next_week_weekday (today target : Nat) : Nat :=
  today + ((7 - pyWeekday today) + target)

/-- The "下周X / 下星期X / 下礼拜X" scan (priority 3): first keyword whose
last character appears behind one of the three next-week markers. -/
def findNextWeekKw (text : List Char) : Option Nat :=
  (WEEKDAY_KEYWORDS.find? fun p =>
      containsSub ('下' :: '周' :: [lastChar p.1]) text ||
      containsSub ('下' :: '星' :: '期' :: [lastChar p.1]) text ||
      containsSub ('下' :: '礼' :: '拜' :: [lastChar p.1]) text).map Prod.snd

/-- The bare-weekday scan (priority 4): first keyword contained in the text. -/
def findBareWeekdayKw (text : List Char) : Option Nat :=
  (WEEKDAY_KEYWORDS.find? fun p => containsSub p.1 text).map Prod.snd

/-- `DateParser.parse_date(text)`: resolve a date from `text` against the
reference ordinal `today`, by the source's priority cascade; returns the
`YYYY-MM-DD` rendering and the untouched input text. -/
def parse_date (today : Nat) (text : List Char) : List Char × List Char :=
  match searchPos matchYMDAt text with
  | some (y, m, d) => (fmtDateY4 y m d, text)
  | none =>
  match searchPos matchMDAt text with
  | some (m, d) => (fmtDate (fromOrdinal today).1 m d, text)
  | none =>
  match searchPos (matchSepAt '/') text with
  | some (m, d) => (fmtDate (fromOrdinal today).1 m d, text)
  | none =>
  match searchPos (matchSepAt '.') text with
  | some (m, d) => (fmtDate (fromOrdinal today).1 m d, text)
  | none =>
  match searchPos (matchPlusAt 'd' 'D') text with
  | some n => (strftimeYmd (today + n), text)
  | none =>
  match searchPos (matchPlusAt 'w' 'W') text with
  | some n => (strftimeYmd (today + 7 * n), text)
  | none =>
  match findNextWeekKw text with
  | some w => (strftimeYmd (get_next_week_weekday today w), text)
  | none =>
  match findBareWeekdayKw text with
  | some w => (strftimeYmd (get_next_weekday today w), text)
  | none =>
  if DATE_KEYWORD_TODAY.any (fun kw => containsSub kw text) then
    (strftimeYmd today, text)
  else if DATE_KEYWORD_TOMORROW.any (fun kw => containsSub kw text) then
    (strftimeYmd (today + 1), text)
  else if DATE_KEYWORD_DAY_AFTER_TOMORROW.any (fun kw => containsSub kw text) then
    (strftimeYmd (today + 2), text)
  else
    (strftimeYmd (today + 1), text)

/-! ## Line splitting (`DateParser.parse_tasks`) -/

/-- Python `str.strip()` whitespace (ASCII portion). -/
def isSpaceC (c : Char) : Bool :=
  c == ' ' || c == '\t' || c == '\n' || c == '\r' || c == '\x0b' || c == '\x0c'

/-- `str.strip()`. -/
def pyStrip (l : List Char) : List Char :=
  ((l.dropWhile isSpaceC).reverse.dropWhile isSpaceC).reverse

/-- `str.split(sep)` for a single-character separator. -/
def splitOnC (sep : Char) : List Char → List (List Char)
  | [] => [[]]
  | c :: rest =>
      if c == sep then [] :: splitOnC sep rest
      else
        match splitOnC sep rest with
        | s :: ss => (c :: s) :: ss
        | [] => [[c]]

/-- `DateParser.parse_tasks`: one task per nonempty (stripped) line, each
paired with the date `parse_date` resolves for that line. -/
def parse_tasks (today : Nat) (text : List Char) : List (List Char × List Char) :=
  (splitOnC '\n' (pyStrip text)).filterMap fun rawLine =>
    let line := pyStrip rawLine
    if line.isEmpty then none
    else
      let (due_date, content) := parse_date today line
      some (content, due_date)

/-! ## Python `strptime('%Y-%m-%d')` (the state machine's data-integrity guard)

CPython's `_strptime` compiles `%Y-%m-%d` to the regex
`(\d\d\d\d)-(1[0-2]|0[1-9]|[1-9])-(3[01]|[12]\d|0[1-9]|[1-9])`, requires the
whole string to be consumed, and then the `datetime` constructor validates
the day against the month length and the year against `MINYEAR = 1`. -/

/-- `%Y`: exactly four digits. -/
def pyYear4 : List Char → Option (Nat × List Char)
  | a :: b :: c :: d :: rest =>
      if isDigitC a && isDigitC b && isDigitC c && isDigitC d then
        some (1000 * dval a + 100 * dval b + 10 * dval c + dval d, rest)
      else none
  | _ => none

/-- `%m`: `1[0-2]|0[1-9]|[1-9]`, alternatives tried left to right. -/
def pyMonth : List Char → Option (Nat × List Char)
  | c :: rest =>
      if c == '1' then
        match rest with
        | c2 :: rest2 =>
            if c2 == '0' || c2 == '1' || c2 == '2' then some (10 + dval c2, rest2)
            else some (1, rest)
        | [] => some (1, [])
      else if c == '0' then
        match rest with
        | c2 :: rest2 => if isDigitC c2 && !(c2 == '0') then some (dval c2, rest2) else none
        | [] => none
      else if isDigitC c && !(c == '0') then some (dval c, rest)
      else none
  | [] => none

/-- `%d`: `3[01]|[12]\d|0[1-9]|[1-9]`, alternatives tried left to right. -/
def pyDay : List Char → Option (Nat × List Char)
  | c :: rest =>
      if c == '3' then
        match rest with
        | c2 :: rest2 =>
            if c2 == '0' || c2 == '1' then some (30 + dval c2, rest2) else some (3, rest)
        | [] => some (3, [])
      else if c == '1' || c == '2' then
        match rest with
        | c2 :: rest2 => if isDigitC c2 then some (10 * dval c + dval c2, rest2) else some (dval c, rest)
        | [] => some (dval c, [])
      else if c == '0' then
        match rest with
        | c2 :: rest2 => if isDigitC c2 && !(c2 == '0') then some (dval c2, rest2) else none
        | [] => none
      else if isDigitC c && !(c == '0') then some (dval c, rest)
      else none
  | [] => none

/-- `datetime.strptime(s, '%Y-%m-%d')`: the (year, month, day) triple when
`s` is a parseable calendar date, `none` when `strptime` raises. -/
def strptime_ymd (cs : List Char) : Option (Nat × Nat × Nat) :=
  match pyYear4 cs with
  | some (y, r1) =>
      match r1 with
      | c1 :: r2 =>
          if c1 = '-' then
            match pyMonth r2 with
            | some (m, r3) =>
                match r3 with
                | c2 :: r4 =>
                    if c2 = '-' then
                      match pyDay r4 with
                      | some (d, r5) =>
                          if r5.isEmpty && decide (1 ≤ y) && decide (d ≤ daysInMonth y m) then
                            some (y, m, d)
                          else none
                      | none => none
                    else none
                | [] => none
            | none => none
          else none
      | [] => none
  | none => none

/-- The ordinal of a parseable stored due date. -/
def strptimeToOrd (cs : List Char) : Option Nat :=
  (strptime_ymd cs).map fun p => toOrdinal p.1 p.2.1 p.2.2

/-- A due-date string is a valid calendar date exactly when the source's own
data-integrity guard (`strptime '%Y-%m-%d'`) accepts it. -/
def isValidDueDate (cs : List Char) : Bool := (strptime_ymd cs).isSome

/-! ## Data model (`models.py` / `database.py`, as in-memory state) -/

/-- Task lifecycle status. -/
inductive Status where
  | pending
  | done
  | canceled
  | missed
deriving Repr, DecidableEq, BEq

/-- A row of the `tasks` table (timestamps are abstract instants). -/
structure Task where
  user_id : Nat
  content : List Char
  due_date : List Char
  status : Status
  completed_at : Option Nat
  canceled_at : Option Nat
deriving Repr, DecidableEq

/-- A row of the `users` table (`morning_hour = none` models the SQL NULL;
the "disabled" encoding is `-1`, cf. `update_user_morning_time`). -/
structure SUser where
  id : Nat
  chat_id : Nat
  tz : List Char
  evening_hour : Int
  evening_min : Int
  morning_hour : Option Int
  morning_min : Option Int
  awaiting_plans : Bool
  skipped_tonight : Bool
deriving Repr, DecidableEq

/-- The record store: the three persisted tables.  Tasks are keyed by their
integer primary key; callbacks store `(callback_id, task_id, action)`. -/
structure DBState where
  users : List SUser
  tasks : List (Nat × Task)
  callbacks : List (List Char × Nat × List Char)
deriving Repr, DecidableEq

/-- First row of an association list with the given key (the semantics of
`query(...).filter(id == key).first()` on a primary key). -/
def lookupTask : List (Nat × Task) → Nat → Option Task
  | [], _ => none
  | p :: l, tid => if p.1 = tid then some p.2 else lookupTask l tid

/-- Apply `f` to every row with the given primary key. -/
def setTask (f : Task → Task) : List (Nat × Task) → Nat → List (Nat × Task)
  | [], _ => []
  | p :: l, tid => (if p.1 = tid then (p.1, f p.2) else p) :: setTask f l tid

/-- `Database.get_task_by_id`. -/
def get_task_by_id (db : DBState) (task_id : Nat) : Option Task :=
  lookupTask db.tasks task_id

/-- `Database.get_user_by_id`. -/
def get_user_by_id (db : DBState) (user_id : Nat) : Option SUser :=
  db.users.find? fun u => u.id = user_id

/-- `Database.get_user_by_chat_id`. -/
def get_user_by_chat_id (db : DBState) (chat_id : Nat) : Option SUser :=
  db.users.find? fun u => u.chat_id = chat_id

/-- `Database.get_all_users`. -/
def get_all_users (db : DBState) : List SUser := db.users

/-- `Database.update_task_status`: set the status of the task with this id;
`teff` is the effective timestamp (`timestamp or datetime.utcnow()`), stamped
into `completed_at` for `done` and `canceled_at` for `canceled`. -/
def update_task_status (db : DBState) (task_id : Nat) (status : Status) (teff : Nat) : DBState :=
  { db with
    tasks := setTask (fun t =>
      { t with
        status := status
        completed_at := if status = Status.done then some teff else t.completed_at
        canceled_at := if status = Status.canceled then some teff else t.canceled_at })
      db.tasks task_id }

/-- `Database.update_task_due_date`. -/
def update_task_due_date (db : DBState) (task_id : Nat) (new_due : List Char) : DBState :=
  { db with
    tasks := setTask (fun t => { t with due_date := new_due }) db.tasks task_id }

/-- `Database.create_task`: insert a pending task under a fresh
autoincrement key; returns the new key. -/
def create_task (db : DBState) (user_id : Nat) (content due_date : List Char) : Nat × DBState :=
  let tid := (db.tasks.map fun p => p.1).foldr Nat.max 0 + 1
  (tid,
    { db with
      tasks := db.tasks ++
        [(tid,
          { user_id := user_id, content := content, due_date := due_date
            status := Status.pending, completed_at := none, canceled_at := none })] })

/-- `Database.get_tasks_by_user_and_date` with a status filter (the query's
`ORDER BY id` is irrelevant to the counting properties proved here). -/
def get_tasks_by_user_and_date (db : DBState) (user_id : Nat) (due_date : List Char)
    (statuses : List Status) : List (Nat × Task) :=
  db.tasks.filter fun p =>
    p.2.user_id == user_id && p.2.due_date == due_date && statuses.contains p.2.status

/-- `Database.is_callback_processed`. -/
def is_callback_processed (db : DBState) (callback_id : List Char) : Bool :=
  db.callbacks.any fun c => c.1 == callback_id

/-- `Database.mark_callback_processed`. -/
def mark_callback_processed (db : DBState) (callback_id : List Char) (task_id : Nat)
    (action : List Char) : DBState :=
  { db with callbacks := db.callbacks ++ [(callback_id, task_id, action)] }

/-- `Database.set_user_awaiting_plans` (result flag dropped: callers ignore it). -/
def set_user_awaiting_plans (db : DBState) (user_id : Nat) (b : Bool) : DBState :=
  { db with users := db.users.map fun u => if u.id == user_id then { u with awaiting_plans := b } else u }

/-- `Database.set_user_skipped_tonight`. -/
def set_user_skipped_tonight (db : DBState) (user_id : Nat) (b : Bool) : DBState :=
  { db with users := db.users.map fun u => if u.id == user_id then { u with skipped_tonight := b } else u }

/-! ## Task lifecycle (`state_machine.py`)

`now` is the instant `datetime.utcnow()` would return during the call. -/

/-- `TaskStateMachine.mark_as_done`. -/
def mark_as_done (now : Nat) (db : DBState) (task_id : Nat) : Bool × DBState :=
  match get_task_by_id db task_id with
  | none => (false, db)
  | some task =>
      if task.status = Status.done then (false, db)
      else (true, update_task_status db task_id Status.done now)

/-- `TaskStateMachine.mark_as_canceled`. -/
def mark_as_canceled (now : Nat) (db : DBState) (task_id : Nat) : Bool × DBState :=
  match get_task_by_id db task_id with
  | none => (false, db)
  | some task =>
      if task.status = Status.canceled then (false, db)
      else (true, update_task_status db task_id Status.canceled now)

/-- `TaskStateMachine.postpone_task`.  A new date outside `datetime`'s
`0001-01-01 … 9999-12-31` range makes the `timedelta` addition raise
`OverflowError` before any write, which the caller surfaces as failure with
the record untouched; that branch is the final `else`. -/
def postpone_task (now : Nat) (db : DBState) (task_id : Nat) (days : Int) :
    Option (List Char) × DBState :=
  match get_task_by_id db task_id with
  | none => (none, db)
  | some task =>
      match strptimeToOrd task.due_date with
      | none => (none, db)
      | some ord =>
          let newOrd : Int := (ord : Int) + days
          if 1 ≤ newOrd ∧ newOrd ≤ (maxOrdinal : Int) then
            let new_due := strftimeYmd newOrd.toNat
            let db1 := update_task_due_date db task_id new_due
            let db2 :=
              if task.status ≠ Status.pending then
                update_task_status db1 task_id Status.pending now
              else db1
            (some new_due, db2)
          else (none, db)

/-- `TaskStateMachine.mark_as_missed`. -/
def mark_as_missed (now : Nat) (db : DBState) (task_id : Nat) : Bool × DBState :=
  match get_task_by_id db task_id with
  | none => (false, db)
  | some task =>
      if task.status ≠ Status.pending then (false, db)
      else (true, update_task_status db task_id Status.missed now)

/-- `TaskStateMachine.can_transition` (documents the intended terminal
states; the mutating operations above do not consult it). -/
def can_transition (db : DBState) (task_id : Nat) (_target : Status) : Bool :=
  match get_task_by_id db task_id with
  | none => false
  | some task =>
      if task.status = Status.done ∨ task.status = Status.canceled then false
      else true

/-! ## Button callbacks (`callbacks.py`) -/

/-- The user-visible outcome of handling one callback query (which message
the inline message is edited to, or `ignored` when only a log line is
written). -/
inductive Response where
  | alreadyProcessed
  | taskDone
  | taskCanceled
  | postponePrompt (task_id : Nat)
  | postponeConfirm (days : Int) (new_due : List Char)
  | postponeFailed
  | taskNotFound
  | invalidOp
  | userNotFound
  | inputModeInstructions
  | skippedTonight
  | ignored
deriving Repr, DecidableEq

/-- Python `int(s)` on the strings that occur as callback-data fields:
an optional sign followed by a nonempty digit run. -/
def pyInt (cs : List Char) : Option Int :=
  let digitsVal : List Char → Option Nat := fun ds =>
    if !ds.isEmpty && ds.all isDigitC then some (ds.foldl (fun acc c => 10 * acc + dval c) 0)
    else none
  match cs with
  | '-' :: rest => (digitsVal rest).map fun n => -(n : Int)
  | '+' :: rest => (digitsVal rest).map fun n => (n : Int)
  | _ => (digitsVal cs).map fun n => (n : Int)

/-- `str(i)` for a Python int. -/
def intDigits (i : Int) : List Char :=
  if i < 0 then '-' :: natDigits (-i).toNat else natDigits i.toNat

/-- `CallbackHandlers._handle_task_callback`: dispatch on
`t:<task_id>:<action>` (plus `:<days>` for postponement).  `ValueError` and
`IndexError` both land on the "无效的操作" reply with no state change. -/
def handle_task_callback (now : Nat) (db : DBState) (callback_id : List Char)
    (parts : List (List Char)) : Response × DBState :=
  match parts with
  | _ :: p1 :: p2 :: restParts =>
      match pyInt p1 with
      | none => (Response.invalidOp, db)
      | some tid0 =>
          -- a negative id never matches an autoincrement key
          match if tid0 < 0 then none else get_task_by_id db tid0.toNat with
          | none => (Response.taskNotFound, db)
          | some _ =>
              let tid := tid0.toNat
              if p2 = ['d', 'o', 'n', 'e'] then
                let (success, db1) := mark_as_done now db tid
                if success then
                  (Response.taskDone, mark_callback_processed db1 callback_id tid ['d', 'o', 'n', 'e'])
                else (Response.alreadyProcessed, db1)
              else if p2 = ['u', 'n'] then
                (Response.postponePrompt tid,
                  mark_callback_processed db callback_id tid ['u', 'n'])
              else if p2 = ['c', 'a', 'n', 'c', 'e', 'l'] then
                let (success, db1) := mark_as_canceled now db tid
                if success then
                  (Response.taskCanceled,
                    mark_callback_processed db1 callback_id tid ['c', 'a', 'n', 'c', 'e', 'l'])
                else (Response.alreadyProcessed, db1)
              else if p2 = ['p'] then
                match restParts with
                | p3 :: _ =>
                    match pyInt p3 with
                    | none => (Response.invalidOp, db)
                    | some days =>
                        let (res, db1) := postpone_task now db tid days
                        match res with
                        | some new_due =>
                            (Response.postponeConfirm days new_due,
                              mark_callback_processed db1 callback_id tid
                                ('p' :: ':' :: intDigits days))
                        | none => (Response.postponeFailed, db1)
                | [] => (Response.invalidOp, db)
              else (Response.ignored, db)
  | _ => (Response.invalidOp, db)

/-- `CallbackHandlers._handle_new_plan_callback`: the `new:<action>` prompt
actions.  A missing `parts[1]` raises outside any handler (no reply, no
state change) — modelled as `ignored`. -/
def handle_new_plan_callback (db : DBState) (chat_id : Nat) (callback_id : List Char)
    (parts : List (List Char)) : Response × DBState :=
  match get_user_by_chat_id db chat_id with
  | none => (Response.userNotFound, db)
  | some user =>
      match parts with
      | _ :: p1 :: _ =>
          if p1 = ['a', 'd', 'd'] then
            (Response.inputModeInstructions,
              set_user_awaiting_plans
                (mark_callback_processed db callback_id 0 ['n', 'e', 'w', '_', 'a', 'd', 'd'])
                user.id true)
          else if p1 = ['s', 'k', 'i', 'p'] then
            (Response.skippedTonight,
              set_user_skipped_tonight
                (mark_callback_processed db callback_id 0 ['n', 'e', 'w', '_', 's', 'k', 'i', 'p'])
                user.id true)
          else (Response.ignored, db)
      | _ => (Response.ignored, db)

/-- `CallbackHandlers.handle_callback_query`: the idempotency gate, then the
`t:`/`new:` dispatch on the colon-split callback data. -/
def handle_callback_query (now : Nat) (db : DBState) (chat_id : Nat)
    (callback_id : List Char) (data : List Char) : Response × DBState :=
  if is_callback_processed db callback_id then (Response.alreadyProcessed, db)
  else
    let parts := splitOnC ':' data
    match parts with
    | p0 :: _ =>
        if p0 = ['t'] then handle_task_callback now db callback_id parts
        else if p0 = ['n', 'e', 'w'] then handle_new_plan_callback db chat_id callback_id parts
        else (Response.ignored, db)
    | [] => (Response.ignored, db)

/-! ## Job scheduling (`scheduler.py`) -/

/-- One APScheduler job: its id and the cron trigger's time-of-day and
timezone. -/
structure Job where
  id : List Char
  hour : Int
  minute : Int
  tz : List Char
deriving Repr, DecidableEq

/-- The scheduler's in-memory job table (APScheduler keeps job ids unique). -/
structure SchedState where
  jobs : List Job
deriving Repr, DecidableEq

/-- `scheduler.get_job`. -/
def get_job (s : SchedState) (jid : List Char) : Option Job :=
  s.jobs.find? fun j => j.id == jid

/-- `scheduler.remove_job`: drop the job under this id. -/
def remove_job (s : SchedState) (jid : List Char) : SchedState :=
  { jobs := s.jobs.filter fun j => !(j.id == jid) }

/-- `scheduler.add_job(..., replace_existing=True)`: any job under the same
id is replaced. -/
def add_job_replacing (s : SchedState) (j : Job) : SchedState :=
  { jobs := (s.jobs.filter fun k => !(k.id == j.id)) ++ [j] }

/-- `f"evening_{user_id}"`. -/
def evening_job_id (user_id : Nat) : List Char :=
  ['e', 'v', 'e', 'n', 'i', 'n', 'g', '_'] ++ natDigits user_id

/-- `f"morning_{user_id}"`. -/
def morning_job_id (user_id : Nat) : List Char :=
  ['m', 'o', 'r', 'n', 'i', 'n', 'g', '_'] ++ natDigits user_id

/-- `TaskScheduler._remove_user_jobs`. -/
def remove_user_jobs (s : SchedState) (user_id : Nat) : SchedState :=
  let s1 := if (get_job s (evening_job_id user_id)).isSome then
              remove_job s (evening_job_id user_id)
            else s
  if (get_job s1 (morning_job_id user_id)).isSome then
    remove_job s1 (morning_job_id user_id)
  else s1

/-- `TaskScheduler._schedule_evening_job`. -/
def schedule_evening_job (s : SchedState) (u : SUser) : SchedState :=
  add_job_replacing s ⟨evening_job_id u.id, u.evening_hour, u.evening_min, u.tz⟩

/-- `TaskScheduler._schedule_morning_job`. -/
def schedule_morning_job (s : SchedState) (u : SUser) : SchedState :=
  add_job_replacing s ⟨morning_job_id u.id, u.morning_hour.getD (-1), u.morning_min.getD (-1), u.tz⟩

/-- `TaskScheduler.rebuild_user_jobs`: remove both of the user's jobs, then
install the evening job and, when the morning time is set and not disabled,
the morning job. -/
def rebuild_user_jobs (s : SchedState) (u : SUser) : SchedState :=
  let s1 := remove_user_jobs s u.id
  let s2 := schedule_evening_job s1 u
  match u.morning_hour with
  | some h => if 0 ≤ h then schedule_morning_job s2 u else s2
  | none => s2

/-! ## Startup makeup sweep (`scheduler.send_makeup_review`,
`main.check_and_send_makeup_reviews`)

`localToday tz` is the ordinal of `datetime.now(tz)`'s calendar date; the
sweep runs at one instant, so both the sweep and `send_makeup_review` see
the same value.  Sends are recorded as the list of recipient user ids. -/

/-- `TaskScheduler.send_makeup_review`: one makeup daily-review batch to the
user when any of yesterday's tasks is still pending/missed. -/
def send_makeup_review (db : DBState) (localToday : List Char → Nat) (user_id : Nat) :
    List Nat :=
  match get_user_by_id db user_id with
  | none => []
  | some user =>
      let yesterday := strftimeYmd (localToday user.tz - 1)
      let tasks := get_tasks_by_user_and_date db user.id yesterday
        [Status.pending, Status.missed]
      if tasks.isEmpty then [] else [user.id]

/-- `check_and_send_makeup_reviews` from `main.py`: per user, re-derive the
local yesterday, query its pending/missed tasks, and invoke
`send_makeup_review` when any exist. -/
def check_and_send_makeup_reviews (db : DBState) (localToday : List Char → Nat) :
    List Nat :=
  (get_all_users db).flatMap fun user =>
    let yesterday := strftimeYmd (localToday user.tz - 1)
    let tasks := get_tasks_by_user_and_date db user.id yesterday
      [Status.pending, Status.missed]
    if tasks.isEmpty then [] else send_makeup_review db localToday user.id

/-! ## C2: next-week weekday arithmetic -/

/-- **C2**: for every reference date and every weekday keyword matched by the
"next-week weekday" rule, the resolved date is
`reference + ((7 - referenceWeekday) + targetWeekday)` days — both at the
level of `_get_next_week_weekday` and through `parse_date`'s cascade once no
higher-priority rule matched; in particular a Saturday reference with target
Monday resolves 2 days out, and a Monday reference with target Monday
resolves 7 days out. -/
theorem next_week_weekday_arithmetic :
    (∀ today target, get_next_week_weekday today target =
        today + ((7 - pyWeekday today) + target)) ∧
    (∀ today text w,
        searchPos matchYMDAt text = none →
        searchPos matchMDAt text = none →
        searchPos (matchSepAt '/') text = none →
        searchPos (matchSepAt '.') text = none →
        searchPos (matchPlusAt 'd' 'D') text = none →
        searchPos (matchPlusAt 'w' 'W') text = none →
        findNextWeekKw text = some w →
        (parse_date today text).1 = strftimeYmd (today + ((7 - pyWeekday today) + w))) ∧
    (∀ today, pyWeekday today = 5 → get_next_week_weekday today 0 = today + 2) ∧
    (∀ today, pyWeekday today = 0 → get_next_week_weekday today 0 = today + 7) := by
  refine ⟨fun today target => rfl, ?_, ?_, ?_⟩
  · intro today text w h1 h2 h3 h4 h5 h6 h7
    unfold parse_date
    rw [h1, h2, h3, h4, h5, h6, h7]
    rfl
  · intro today h
    unfold get_next_week_weekday
    rw [h]
  · intro today h
    unfold get_next_week_weekday
    rw [h]

/-- Witness for C2 at the spec's own example dates: 2025-11-08 (ordinal
739563) is a Saturday and "next Monday" lands on 2025-11-10 (+2); 2025-11-10
is a Monday and "next Monday" lands 7 days out; the full cascade agrees on
the text "下周一". -/
theorem next_week_weekday_arithmetic_witness :
    pyWeekday 739563 = 5 ∧ get_next_week_weekday 739563 0 = 739565 ∧
    pyWeekday 739565 = 0 ∧ get_next_week_weekday 739565 0 = 739572 ∧
    (parse_date 739563 ['下', '周', '一']).1 = strftimeYmd (739563 + ((7 - pyWeekday 739563) + 0)) :=
  ⟨by decide, next_week_weekday_arithmetic.2.2.1 739563 (by decide),
   by decide, next_week_weekday_arithmetic.2.2.2 739565 (by decide),
   next_week_weekday_arithmetic.2.1 739563 ['下', '周', '一'] 0
     (by decide) (by decide) (by decide) (by decide) (by decide) (by decide) (by decide)⟩

/-! ## C6: `rebuild_user_jobs` is idempotent -/

lemma evening_ne_morning (uid : Nat) : evening_job_id uid ≠ morning_job_id uid := by
  simp [evening_job_id, morning_job_id]

lemma countP_jobs_append (l₁ l₂ : List Job) (jid : List Char) :
    (l₁ ++ l₂).countP (fun k => k.id == jid) =
      l₁.countP (fun k => k.id == jid) + l₂.countP (fun k => k.id == jid) :=
  List.countP_append _ _ _

lemma countP_filter_out_self (l : List Job) (jid : List Char) :
    (l.filter fun k => !(k.id == jid)).countP (fun k => k.id == jid) = 0 := by
  rw [List.countP_eq_zero]
  intro a ha
  have h := List.mem_filter.mp ha
  simpa using h.2

lemma countP_filter_out_other (l : List Job) (a b : List Char) (hab : a ≠ b) :
    (l.filter fun k => !(k.id == b)).countP (fun k => k.id == a) =
      l.countP (fun k => k.id == a) := by
  rw [List.countP_filter]
  apply List.countP_congr
  intro k _
  by_cases hk : k.id = a
  · subst hk
    simp [hab]
  · simp [hk]

lemma countP_add_job_self (s : SchedState) (j : Job) (jid : List Char) (h : j.id = jid) :
    (add_job_replacing s j).jobs.countP (fun k => k.id == jid) = 1 := by
  subst h
  unfold add_job_replacing
  rw [countP_jobs_append, countP_filter_out_self]
  simp [List.countP_cons]

lemma countP_add_job_other (s : SchedState) (j : Job) (jid : List Char) (h : jid ≠ j.id) :
    (add_job_replacing s j).jobs.countP (fun k => k.id == jid) =
      s.jobs.countP (fun k => k.id == jid) := by
  unfold add_job_replacing
  rw [countP_jobs_append, countP_filter_out_other _ _ _ h]
  simp [List.countP_cons, Ne.symm h]

lemma countP_remove_job_self (s : SchedState) (jid : List Char) :
    (remove_job s jid).jobs.countP (fun k => k.id == jid) = 0 :=
  countP_filter_out_self _ _

lemma countP_get_job_none (s : SchedState) (jid : List Char) (h : get_job s jid = none) :
    s.jobs.countP (fun k => k.id == jid) = 0 := by
  rw [List.countP_eq_zero]
  intro a ha
  have := List.find?_eq_none.mp h a ha
  simpa using this

lemma countP_maybe_remove_self (s : SchedState) (jid : List Char) :
    ((if (get_job s jid).isSome then remove_job s jid else s).jobs.countP
      (fun k => k.id == jid)) = 0 := by
  split
  · exact countP_remove_job_self s jid
  · next h => exact countP_get_job_none s jid (Option.not_isSome_iff_eq_none.mp h)

lemma countP_maybe_remove_other (s : SchedState) (a b : List Char) (hab : a ≠ b) :
    ((if (get_job s b).isSome then remove_job s b else s).jobs.countP
      (fun k => k.id == a)) = s.jobs.countP (fun k => k.id == a) := by
  split
  · exact countP_filter_out_other s.jobs a b hab
  · rfl

lemma remove_user_jobs_eq (s : SchedState) (uid : Nat) :
    remove_user_jobs s uid =
      (let s1 := if (get_job s (evening_job_id uid)).isSome then
                   remove_job s (evening_job_id uid)
                 else s
       if (get_job s1 (morning_job_id uid)).isSome then
         remove_job s1 (morning_job_id uid)
       else s1) := rfl

lemma countP_remove_user_jobs (s : SchedState) (uid : Nat) :
    ((remove_user_jobs s uid).jobs.countP (fun k => k.id == evening_job_id uid) = 0) ∧
    ((remove_user_jobs s uid).jobs.countP (fun k => k.id == morning_job_id uid) = 0) := by
  rw [remove_user_jobs_eq]
  constructor
  · exact (countP_maybe_remove_other _ _ _ (evening_ne_morning uid)).trans
      (countP_maybe_remove_self s (evening_job_id uid))
  · exact countP_maybe_remove_self _ (morning_job_id uid)

lemma rebuild_counts (s : SchedState) (u : SUser) :
    ((rebuild_user_jobs s u).jobs.countP (fun k => k.id == evening_job_id u.id) = 1) ∧
    ((rebuild_user_jobs s u).jobs.countP (fun k => k.id == morning_job_id u.id) =
      match u.morning_hour with
      | some h => if 0 ≤ h then 1 else 0
      | none => 0) := by
  have hrm := countP_remove_user_jobs s u.id
  unfold rebuild_user_jobs schedule_evening_job schedule_morning_job
  cases hm : u.morning_hour with
  | none =>
      dsimp only
      refine ⟨countP_add_job_self _ _ _ rfl, ?_⟩
      exact (countP_add_job_other _ _ _ (Ne.symm (evening_ne_morning u.id))).trans hrm.2
  | some h =>
      by_cases hh : 0 ≤ h
      · simp only [if_pos hh]
        refine ⟨?_, countP_add_job_self _ _ _ rfl⟩
        exact (countP_add_job_other _ _ _ (evening_ne_morning u.id)).trans
          (countP_add_job_self _ _ _ rfl)
      · simp only [if_neg hh]
        refine ⟨countP_add_job_self _ _ _ rfl, ?_⟩
        exact (countP_add_job_other _ _ _ (Ne.symm (evening_ne_morning u.id))).trans hrm.2

/-- **C6**: calling `rebuild_user_jobs` twice in succession for the same user
leaves exactly one evening trigger for that user and, when the morning time
is enabled (set and nonnegative), exactly one morning trigger — none when
disabled — regardless of the scheduler's prior job table. -/
theorem rebuild_user_jobs_idempotent (s : SchedState) (u : SUser) :
    (((rebuild_user_jobs (rebuild_user_jobs s u) u).jobs.countP
        (fun k => k.id == evening_job_id u.id)) = 1) ∧
    (((rebuild_user_jobs (rebuild_user_jobs s u) u).jobs.countP
        (fun k => k.id == morning_job_id u.id)) =
      match u.morning_hour with
      | some h => if 0 ≤ h then 1 else 0
      | none => 0) :=
  rebuild_counts (rebuild_user_jobs s u) u

/-! ## Frame lemmas for the task-table updates -/

lemma lookup_setTask (f : Task → Task) (l : List (Nat × Task)) (tid : Nat) :
    lookupTask (setTask f l tid) tid = (lookupTask l tid).map f := by
  induction l with
  | nil => rfl
  | cons p l ih =>
      by_cases h : p.1 = tid
      · simp [lookupTask, setTask, h]
      · simp [lookupTask, setTask, h, ih]

lemma get_task_update_due_date (db : DBState) (tid : Nat) (s : List Char) :
    get_task_by_id (update_task_due_date db tid s) tid =
      (get_task_by_id db tid).map fun t => { t with due_date := s } := by
  unfold get_task_by_id update_task_due_date
  exact lookup_setTask _ db.tasks tid

lemma get_task_update_status (db : DBState) (tid : Nat) (st : Status) (teff : Nat) :
    get_task_by_id (update_task_status db tid st teff) tid =
      (get_task_by_id db tid).map fun t =>
        { t with
          status := st
          completed_at := if st = Status.done then some teff else t.completed_at
          canceled_at := if st = Status.canceled then some teff else t.canceled_at } := by
  unfold get_task_by_id update_task_status
  exact lookup_setTask _ db.tasks tid

/-! ## C3: `done`/`canceled` are not in fact terminal (code bug evidence)

The module's own state diagram (`pending → done | canceled | missed`) and its
`can_transition` guard declare `done` and `canceled` terminal, but the
mutating operations never consult the guard: `mark_as_done` only rejects
tasks already `done` (so it revives a `canceled` task), `mark_as_canceled`
only rejects tasks already `canceled`, and `postpone_task` revives anything. -/

def c3db : DBState :=
  { users := []
    tasks :=
      [(1, { user_id := 1, content := ['a']
             due_date := ['2', '0', '2', '5', '-', '1', '1', '-', '0', '8']
             status := Status.canceled, completed_at := none, canceled_at := some 5 }),
       (2, { user_id := 1, content := ['b']
             due_date := ['2', '0', '2', '5', '-', '1', '1', '-', '0', '8']
             status := Status.done, completed_at := some 6, canceled_at := none })]
    callbacks := [] }

/-- **C3** (failing-input evaluation): on a `canceled` task, `mark_as_done`
succeeds and flips it to `done`; on a `done` task, `mark_as_canceled`
succeeds and `postpone_task` moves its due date and forces it back to
`pending` — while the code's own `can_transition` says no transition out of
`done`/`canceled` is permitted.  The claim (terminal states) matches the
code's stated intent; the operations violate it. -/
theorem terminal_states_not_enforced :
    (mark_as_done 7 c3db 1).1 = true ∧
    (get_task_by_id (mark_as_done 7 c3db 1).2 1).map Task.status = some Status.done ∧
    (mark_as_canceled 8 c3db 2).1 = true ∧
    (get_task_by_id (mark_as_canceled 8 c3db 2).2 2).map Task.status = some Status.canceled ∧
    (postpone_task 9 c3db 2 1).1 = some ['2', '0', '2', '5', '-', '1', '1', '-', '0', '9'] ∧
    (get_task_by_id (postpone_task 9 c3db 2 1).2 2).map Task.status = some Status.pending ∧
    (get_task_by_id (postpone_task 9 c3db 2 1).2 2).map Task.due_date =
      some ['2', '0', '2', '5', '-', '1', '1', '-', '0', '9'] ∧
    can_transition c3db 1 Status.done = false ∧
    can_transition c3db 2 Status.pending = false := by
  decide

/-! ## C4: `postpone_task` -/

/-- **C4**: `postpone_task` fails (returns `none`) and leaves the store
unchanged when the task does not exist or its stored due date is not a
parseable calendar date; otherwise (for a new date inside `datetime`'s
range) it returns `currentDue + days`, persists it, and the task's status
ends up `pending` regardless of its prior status. -/
theorem postpone_task_spec :
    (∀ now db tid days, get_task_by_id db tid = none →
        postpone_task now db tid days = (none, db)) ∧
    (∀ now db tid days t, get_task_by_id db tid = some t →
        strptimeToOrd t.due_date = none →
        postpone_task now db tid days = (none, db)) ∧
    (∀ now db tid days t ord, get_task_by_id db tid = some t →
        strptimeToOrd t.due_date = some ord →
        1 ≤ (ord : Int) + days → (ord : Int) + days ≤ (maxOrdinal : Int) →
        (postpone_task now db tid days).1 = some (strftimeYmd ((ord : Int) + days).toNat) ∧
        (get_task_by_id (postpone_task now db tid days).2 tid).map Task.due_date =
          some (strftimeYmd ((ord : Int) + days).toNat) ∧
        (get_task_by_id (postpone_task now db tid days).2 tid).map Task.status =
          some Status.pending) := by
  refine ⟨?_, ?_, ?_⟩
  · intro now db tid days h
    unfold postpone_task
    rw [h]
  · intro now db tid days t hget hord
    unfold postpone_task
    rw [hget]
    dsimp only
    rw [hord]
  · intro now db tid days t ord hget hord h1 h2
    unfold postpone_task
    rw [hget]
    dsimp only
    rw [hord]
    dsimp only
    rw [if_pos ⟨h1, h2⟩]
    refine ⟨rfl, ?_, ?_⟩
    · split
      · rw [get_task_update_status, get_task_update_due_date, hget]
        rfl
      · rw [get_task_update_due_date, hget]
        rfl
    · split
      · rw [get_task_update_status, get_task_update_due_date, hget]
        rfl
      · next hst =>
          rw [get_task_update_due_date, hget]
          have hp : t.status = Status.pending := by
            by_contra hc
            exact hst hc
          simp [hp]

def c4db : DBState :=
  { users := []
    tasks :=
      [(1, { user_id := 1, content := ['a']
             due_date := ['2', '0', '2', '5', '-', '1', '1', '-', '0', '8']
             status := Status.missed, completed_at := none, canceled_at := none })]
    callbacks := [] }

/-- Witness for C4 at the spec's example: postponing by 2 days a `missed`
task due 2025-11-08 yields due date 2025-11-10 and status `pending`. -/
theorem postpone_task_spec_witness :
    ((postpone_task 0 c4db 1 2).1 = some (strftimeYmd ((739563 : Int) + 2).toNat) ∧
     (get_task_by_id (postpone_task 0 c4db 1 2).2 1).map Task.due_date =
       some (strftimeYmd ((739563 : Int) + 2).toNat) ∧
     (get_task_by_id (postpone_task 0 c4db 1 2).2 1).map Task.status =
       some Status.pending) ∧
    strftimeYmd ((739563 : Int) + 2).toNat = ['2', '0', '2', '5', '-', '1', '1', '-', '1', '0'] :=
  ⟨postpone_task_spec.2.2 0 c4db 1 2
      { user_id := 1, content := ['a']
        due_date := ['2', '0', '2', '5', '-', '1', '1', '-', '0', '8']
        status := Status.missed, completed_at := none, canceled_at := none }
      739563 rfl (by decide) (by decide) (by decide),
   by decide⟩

/-! ## C10: the "not done" (undone) button is a pure frame action -/

/-- **C10**: handling an `un` (not-done) task action records the interaction
identifier and answers with the postpone-options prompt, but leaves every
task record — and every user record — untouched; only a later postpone
action mutates the task. -/
theorem undone_action_frame (now : Nat) (db : DBState) (cb p1 : List Char)
    (rest : List (List Char)) (tid : Int) (t : Task)
    (hp : pyInt p1 = some tid) (hneg : ¬ tid < 0)
    (hget : get_task_by_id db tid.toNat = some t) :
    (handle_task_callback now db cb (['t'] :: p1 :: ['u', 'n'] :: rest)).1 =
      Response.postponePrompt tid.toNat ∧
    (handle_task_callback now db cb (['t'] :: p1 :: ['u', 'n'] :: rest)).2.tasks = db.tasks ∧
    (handle_task_callback now db cb (['t'] :: p1 :: ['u', 'n'] :: rest)).2.users = db.users ∧
    is_callback_processed
      (handle_task_callback now db cb (['t'] :: p1 :: ['u', 'n'] :: rest)).2 cb = true := by
  unfold handle_task_callback
  dsimp only
  rw [hp]
  dsimp only
  rw [if_neg hneg, hget]
  refine ⟨rfl, rfl, rfl, ?_⟩
  simp [is_callback_processed, mark_callback_processed]

def c10db : DBState :=
  { users := []
    tasks :=
      [(5, { user_id := 1, content := ['a']
             due_date := ['2', '0', '2', '5', '-', '1', '1', '-', '0', '8']
             status := Status.pending, completed_at := none, canceled_at := none })]
    callbacks := [] }

/-- Witness for C10 on a concrete pending task. -/
theorem undone_action_frame_witness :
    (handle_task_callback 3 c10db ['c', 'b'] (['t'] :: ['5'] :: ['u', 'n'] :: [])).1 =
      Response.postponePrompt 5 ∧
    (handle_task_callback 3 c10db ['c', 'b'] (['t'] :: ['5'] :: ['u', 'n'] :: [])).2.tasks =
      c10db.tasks ∧
    (handle_task_callback 3 c10db ['c', 'b'] (['t'] :: ['5'] :: ['u', 'n'] :: [])).2.users =
      c10db.users ∧
    is_callback_processed
      (handle_task_callback 3 c10db ['c', 'b'] (['t'] :: ['5'] :: ['u', 'n'] :: [])).2
      ['c', 'b'] = true :=
  undone_action_frame 3 c10db ['c', 'b'] ['5'] [] 5
    { user_id := 1, content := ['a']
      due_date := ['2', '0', '2', '5', '-', '1', '1', '-', '0', '8']
      status := Status.pending, completed_at := none, canceled_at := none }
    (by decide) (by decide) (by decide)

/-! ## C8: the matched date marker is NOT stripped from stored content -/

/-- **C8 counterexample**: the line "明天 买菜" is resolved through the
relative-day keyword "明天", yet the content paired with the created task is
the entire line — the matched keyword is still its prefix, so the stored
content is not date-marker-free as claimed. -/
theorem date_marker_not_stripped :
    parse_tasks 739563 ['明', '天', ' ', '买', '菜'] =
      [(['明', '天', ' ', '买', '菜'], ['2', '0', '2', '5', '-', '1', '1', '-', '0', '9'])] ∧
    List.isPrefixOf ['明', '天'] ['明', '天', ' ', '买', '菜'] = true := by
  decide

/-- **C8 amended**: no stripping exists — `parse_date` hands back the input
text unchanged as the content component, so every task produced by
`parse_tasks` stores as content the whitespace-stripped input line itself,
matched date marker included. -/
theorem content_not_stripped (today : Nat) (text : List Char) :
    (parse_date today text).2 = text ∧
    ∀ p ∈ parse_tasks today text,
      ∃ rawLine ∈ splitOnC '\n' (pyStrip text), p.1 = pyStrip rawLine := by
  have hsnd : ∀ t : List Char, (parse_date today t).2 = t := by
    intro t
    unfold parse_date
    repeat' split
    all_goals rfl
  refine ⟨hsnd text, ?_⟩
  intro p hp
  unfold parse_tasks at hp
  rw [List.mem_filterMap] at hp
  obtain ⟨raw, hraw, heq⟩ := hp
  refine ⟨raw, hraw, ?_⟩
  by_cases he : (pyStrip raw).isEmpty
  · rw [if_pos he] at heq
    exact absurd heq (by simp)
  · rw [if_neg he] at heq
    have h2 := hsnd (pyStrip raw)
    cases hpd : parse_date today (pyStrip raw) with
    | mk due content =>
        rw [hpd] at heq h2
        cases heq
        exact h2

/-- Witness for C8 (amended) on the counterexample line. -/
theorem content_not_stripped_witness :
    ∃ rawLine ∈ splitOnC '\n' (pyStrip ['明', '天', ' ', '买', '菜']),
      ((['明', '天', ' ', '买', '菜'], ['2', '0', '2', '5', '-', '1', '1', '-', '0', '9']) :
        List Char × List Char).1 = pyStrip rawLine :=
  (content_not_stripped 739563 ['明', '天', ' ', '买', '菜']).2
    (['明', '天', ' ', '买', '菜'], ['2', '0', '2', '5', '-', '1', '1', '-', '0', '9'])
    (by decide)

/-! ## C5: explicit dates win the cascade — but there are no localized forms -/

/-- **C5 counterexample**: the claim counts the localized "N月M日"/"N月M号"
forms among the supported explicit dates, but the resolver has no such
pattern: "12月25日" falls through the whole cascade and resolves to
reference + 1 (2025-11-09 for reference 2025-11-08), not 2025-12-25. -/
theorem localized_date_form_not_supported :
    (parse_date 739563 ['1', '2', '月', '2', '5', '日']).1 =
      ['2', '0', '2', '5', '-', '1', '1', '-', '0', '9'] ∧
    (['2', '0', '2', '5', '-', '1', '1', '-', '0', '9'] : List Char) ≠
      ['2', '0', '2', '5', '-', '1', '2', '-', '2', '5'] := by
  decide

/-- **C5 amended**: for the explicit-date forms the code supports —
YYYY-MM-DD, and MM-DD / MM/DD / MM.DD with the reference year —
`parse_date` returns exactly the matched date, regardless of any other
keywords (offsets, weekday words, relative-day words) in the same text;
each form yields only to the explicit forms above it in the cascade. -/
theorem explicit_date_wins (today : Nat) (text : List Char) :
    (∀ y m d, searchPos matchYMDAt text = some (y, m, d) →
        (parse_date today text).1 = fmtDateY4 y m d) ∧
    (∀ m d, searchPos matchYMDAt text = none →
        searchPos matchMDAt text = some (m, d) →
        (parse_date today text).1 = fmtDate (fromOrdinal today).1 m d) ∧
    (∀ m d, searchPos matchYMDAt text = none → searchPos matchMDAt text = none →
        searchPos (matchSepAt '/') text = some (m, d) →
        (parse_date today text).1 = fmtDate (fromOrdinal today).1 m d) ∧
    (∀ m d, searchPos matchYMDAt text = none → searchPos matchMDAt text = none →
        searchPos (matchSepAt '/') text = none →
        searchPos (matchSepAt '.') text = some (m, d) →
        (parse_date today text).1 = fmtDate (fromOrdinal today).1 m d) := by
  refine ⟨?_, ?_, ?_, ?_⟩
  · intro y m d h1
    unfold parse_date
    rw [h1]
  · intro m d h1 h2
    unfold parse_date
    rw [h1, h2]
  · intro m d h1 h2 h3
    unfold parse_date
    rw [h1, h2, h3]
  · intro m d h1 h2 h3 h4
    unfold parse_date
    rw [h1, h2, h3, h4]

/-- Witness for C5 (amended): a YYYY-MM-DD literal wins over a weekday word,
an offset and a relative-day word in the same text. -/
theorem explicit_date_wins_witness :
    (parse_date 739563
        ['2', '0', '2', '5', '-', '1', '2', '-', '2', '5', ' ',
         '周', '一', ' ', '+', '3', 'd', ' ', '明', '天']).1 =
      fmtDateY4 2025 12 25 ∧
    fmtDateY4 2025 12 25 = ['2', '0', '2', '5', '-', '1', '2', '-', '2', '5'] :=
  ⟨(explicit_date_wins 739563
      ['2', '0', '2', '5', '-', '1', '2', '-', '2', '5', ' ',
       '周', '一', ' ', '+', '3', 'd', ' ', '明', '天']).1 2025 12 25 (by decide),
   by decide⟩

/-! ## C1: the ProcessedCallback gate makes duplicate clicks no-ops -/

lemma is_processed_mark (db : DBState) (cb : List Char) (tid : Nat) (a : List Char) :
    is_callback_processed (mark_callback_processed db cb tid a) cb = true := by
  simp [is_callback_processed, mark_callback_processed]

lemma new_plan_tasks_frame (db : DBState) (chat : Nat) (cb : List Char)
    (parts : List (List Char)) :
    (handle_new_plan_callback db chat cb parts).2.tasks = db.tasks := by
  unfold handle_new_plan_callback
  repeat' split
  all_goals rfl

lemma mark_as_done_fail (now : Nat) (db : DBState) (tid : Nat) :
    (mark_as_done now db tid).1 = false → (mark_as_done now db tid).2 = db := by
  unfold mark_as_done
  cases hg : get_task_by_id db tid with
  | none => intro _; rfl
  | some t =>
      dsimp only
      by_cases hs : t.status = Status.done
      · rw [if_pos hs]
        intro _
        rfl
      · rw [if_neg hs]
        intro h
        exact absurd h (by simp)

lemma mark_as_canceled_fail (now : Nat) (db : DBState) (tid : Nat) :
    (mark_as_canceled now db tid).1 = false → (mark_as_canceled now db tid).2 = db := by
  unfold mark_as_canceled
  cases hg : get_task_by_id db tid with
  | none => intro _; rfl
  | some t =>
      dsimp only
      by_cases hs : t.status = Status.canceled
      · rw [if_pos hs]
        intro _
        rfl
      · rw [if_neg hs]
        intro h
        exact absurd h (by simp)

lemma postpone_task_fail (now : Nat) (db : DBState) (tid : Nat) (days : Int) :
    (postpone_task now db tid days).1 = none → (postpone_task now db tid days).2 = db := by
  unfold postpone_task
  cases hg : get_task_by_id db tid with
  | none => intro _; rfl
  | some t =>
      dsimp only
      cases ho : strptimeToOrd t.due_date with
      | none => intro _; rfl
      | some ord =>
          dsimp only
          by_cases hr : 1 ≤ (ord : Int) + days ∧ (ord : Int) + days ≤ (maxOrdinal : Int)
          · rw [if_pos hr]
            intro h
            exact absurd h (by simp)
          · rw [if_neg hr]
            intro _
            rfl

lemma task_cb_mut_recorded (now : Nat) (db : DBState) (cb : List Char)
    (parts : List (List Char)) :
    (handle_task_callback now db cb parts).2.tasks ≠ db.tasks →
    is_callback_processed (handle_task_callback now db cb parts).2 cb = true := by
  rcases parts with _ | ⟨p0, _ | ⟨p1, _ | ⟨p2, restParts⟩⟩⟩
  · intro hmut; exact absurd rfl hmut
  · intro hmut; exact absurd rfl hmut
  · intro hmut; exact absurd rfl hmut
  unfold handle_task_callback
  dsimp only
  cases hpi : pyInt p1 with
  | none => intro hmut; exact absurd rfl hmut
  | some tid0 =>
      dsimp only
      cases hg : (if tid0 < 0 then none else get_task_by_id db tid0.toNat) with
      | none => intro hmut; exact absurd rfl hmut
      | some t =>
          dsimp only
          by_cases hd : p2 = ['d', 'o', 'n', 'e']
          · rw [if_pos hd]
            cases hmd : mark_as_done now db tid0.toNat with
            | mk success db1 =>
                cases success
                · dsimp only
                  intro hmut
                  have hdb : db1 = db := by
                    have h2 := mark_as_done_fail now db tid0.toNat (by rw [hmd])
                    rw [hmd] at h2
                    exact h2
                  rw [hdb] at hmut
                  exact absurd rfl hmut
                · intro _
                  exact is_processed_mark db1 cb tid0.toNat _
          · rw [if_neg hd]
            by_cases hu : p2 = ['u', 'n']
            · rw [if_pos hu]
              intro _
              exact is_processed_mark db cb tid0.toNat _
            · rw [if_neg hu]
              by_cases hc : p2 = ['c', 'a', 'n', 'c', 'e', 'l']
              · rw [if_pos hc]
                cases hmc : mark_as_canceled now db tid0.toNat with
                | mk success db1 =>
                    cases success
                    · dsimp only
                      intro hmut
                      have hdb : db1 = db := by
                        have h2 := mark_as_canceled_fail now db tid0.toNat (by rw [hmc])
                        rw [hmc] at h2
                        exact h2
                      rw [hdb] at hmut
                      exact absurd rfl hmut
                    · intro _
                      exact is_processed_mark db1 cb tid0.toNat _
              · rw [if_neg hc]
                by_cases hp : p2 = ['p']
                · rw [if_pos hp]
                  cases restParts with
                  | nil => intro hmut; exact absurd rfl hmut
                  | cons p3 tail =>
                      dsimp only
                      cases hpd : pyInt p3 with
                      | none => intro hmut; exact absurd rfl hmut
                      | some days =>
                          dsimp only
                          cases hpt : postpone_task now db tid0.toNat days with
                          | mk res db1 =>
                              cases res with
                              | some new_due =>
                                  intro _
                                  exact is_processed_mark db1 cb tid0.toNat _
                              | none =>
                                  dsimp only
                                  intro hmut
                                  have hdb : db1 = db := by
                                    have h2 := postpone_task_fail now db tid0.toNat days
                                      (by rw [hpt])
                                    rw [hpt] at h2
                                    exact h2
                                  rw [hdb] at hmut
                                  exact absurd rfl hmut
                · rw [if_neg hp]
                  intro hmut
                  exact absurd rfl hmut

/-- **C1**: when a callback-handling attempt applies a task mutation, the
interaction identifier is recorded, so a second sequential attempt with the
same identifier mutates nothing further — it returns the untouched store and
the "already handled" reply.  In total exactly the first attempt's mutation
is applied. -/
theorem duplicate_callback_second_attempt_noop (now now2 : Nat) (db : DBState)
    (chat : Nat) (cb data : List Char)
    (hmut : (handle_callback_query now db chat cb data).2.tasks ≠ db.tasks) :
    handle_callback_query now2 (handle_callback_query now db chat cb data).2 chat cb data =
      (Response.alreadyProcessed, (handle_callback_query now db chat cb data).2) := by
  have hrec : is_callback_processed (handle_callback_query now db chat cb data).2 cb = true := by
    unfold handle_callback_query at hmut ⊢
    by_cases hg : is_callback_processed db cb
    · rw [if_pos hg] at hmut
      exact absurd rfl hmut
    · rw [if_neg hg] at hmut ⊢
      dsimp only at hmut ⊢
      cases hparts : splitOnC ':' data with
      | nil => rw [hparts] at hmut; exact absurd rfl hmut
      | cons p0 ps =>
          rw [hparts] at hmut
          dsimp only at hmut ⊢
          by_cases ht : p0 = ['t']
          · rw [if_pos ht] at hmut ⊢
            exact task_cb_mut_recorded now db cb (p0 :: ps) hmut
          · rw [if_neg ht] at hmut ⊢
            by_cases hn : p0 = ['n', 'e', 'w']
            · rw [if_pos hn] at hmut
              rw [new_plan_tasks_frame] at hmut
              exact absurd rfl hmut
            · rw [if_neg hn] at hmut
              exact absurd rfl hmut
  obtain ⟨db1, hdb1⟩ : ∃ x, (handle_callback_query now db chat cb data).2 = x := ⟨_, rfl⟩
  rw [hdb1] at hrec ⊢
  unfold handle_callback_query
  rw [if_pos hrec]

def c1db : DBState :=
  { users := []
    tasks :=
      [(1, { user_id := 1, content := ['a']
             due_date := ['2', '0', '2', '5', '-', '1', '1', '-', '0', '8']
             status := Status.pending, completed_at := none, canceled_at := none })]
    callbacks := [] }

/-- Witness for C1: a concrete `t:1:done` click on a pending task mutates it
once; replaying the same callback id is answered "already handled" with no
further change. -/
theorem duplicate_callback_second_attempt_noop_witness :
    handle_callback_query 1
        (handle_callback_query 0 c1db 9 ['c', 'b', '1']
          ['t', ':', '1', ':', 'd', 'o', 'n', 'e']).2
        9 ['c', 'b', '1'] ['t', ':', '1', ':', 'd', 'o', 'n', 'e'] =
      (Response.alreadyProcessed,
        (handle_callback_query 0 c1db 9 ['c', 'b', '1']
          ['t', ':', '1', ':', 'd', 'o', 'n', 'e']).2) :=
  duplicate_callback_second_attempt_noop 0 1 c1db 9 ['c', 'b', '1']
    ['t', ':', '1', ':', 'd', 'o', 'n', 'e'] (by decide)

/-! ## C7: the startup sweep sends exactly one makeup notice per affected user -/

lemma find_user_self (l : List SUser) (u : SUser) (hmem : u ∈ l)
    (hnd : (l.map SUser.id).Nodup) : l.find? (fun v => v.id = u.id) = some u := by
  induction l with
  | nil => cases hmem
  | cons v l ih =>
      rcases List.mem_cons.mp hmem with rfl | hm
      · exact List.find?_cons_of_pos _ (by simp)
      · have hnd' : (∀ x ∈ l, ¬ x.id = v.id) ∧ (l.map SUser.id).Nodup := by
          simpa using hnd
        have hne : v.id ≠ u.id := fun he => hnd'.1 u hm he.symm
        rw [List.find?_cons_of_neg _ (by simp [hne])]
        exact ih hm hnd'.2

lemma send_makeup_mem (db : DBState) (localToday : List Char → Nat) (uid x : Nat) :
    x ∈ send_makeup_review db localToday uid → x = uid := by
  unfold send_makeup_review
  cases hf : get_user_by_id db uid with
  | none => intro hx; cases hx
  | some w =>
      have hw : w.id = uid := by
        have := List.find?_some hf
        simpa using this
      dsimp only
      split
      · intro hx; cases hx
      · intro hx
        rcases List.mem_singleton.mp hx with rfl
        exact hw

lemma count_makeup_zero (db : DBState) (localToday : List Char → Nat) (uid : Nat)
    (l : List SUser) (h : ∀ v ∈ l, v.id ≠ uid) :
    (l.flatMap fun user =>
        let yesterday := strftimeYmd (localToday user.tz - 1)
        let tasks := get_tasks_by_user_and_date db user.id yesterday
          [Status.pending, Status.missed]
        if tasks.isEmpty then [] else send_makeup_review db localToday user.id).count uid
      = 0 := by
  induction l with
  | nil => rfl
  | cons v l ih =>
      rw [List.flatMap_cons, List.count_append]
      have hv : v.id ≠ uid := h v (List.mem_cons_self v l)
      have hhead :
          (let yesterday := strftimeYmd (localToday v.tz - 1)
           let tasks := get_tasks_by_user_and_date db v.id yesterday
             [Status.pending, Status.missed]
           if tasks.isEmpty then [] else send_makeup_review db localToday v.id).count uid
            = 0 := by
        dsimp only
        split
        · rfl
        · rw [List.count_eq_zero]
          intro hmem
          exact hv ((send_makeup_mem db localToday v.id uid hmem).symm)
      rw [hhead]
      rw [ih fun w hw => h w (List.mem_cons_of_mem v hw)]

lemma makeup_aux (db : DBState) (localToday : List Char → Nat) (u : SUser)
    (l : List SUser)
    (hself : ∀ v ∈ l, get_user_by_id db v.id = some v)
    (hnd : (l.map SUser.id).Nodup) (hmem : u ∈ l) :
    (l.flatMap fun user =>
        let yesterday := strftimeYmd (localToday user.tz - 1)
        let tasks := get_tasks_by_user_and_date db user.id yesterday
          [Status.pending, Status.missed]
        if tasks.isEmpty then [] else send_makeup_review db localToday user.id).count u.id
      =
      if (get_tasks_by_user_and_date db u.id
            (strftimeYmd (localToday u.tz - 1)) [Status.pending, Status.missed]).isEmpty
      then 0 else 1 := by
  induction l with
  | nil => cases hmem
  | cons v l ih =>
      rw [List.flatMap_cons, List.count_append]
      have hnd' : (∀ x ∈ l, ¬ x.id = v.id) ∧ (l.map SUser.id).Nodup := by
        simpa using hnd
      rcases List.mem_cons.mp hmem with rfl | hm
      · have htail :
            (l.flatMap fun user =>
                let yesterday := strftimeYmd (localToday user.tz - 1)
                let tasks := get_tasks_by_user_and_date db user.id yesterday
                  [Status.pending, Status.missed]
                if tasks.isEmpty then [] else
                  send_makeup_review db localToday user.id).count u.id = 0 := by
          apply count_makeup_zero
          intro w hw
          exact hnd'.1 w hw
        rw [htail, Nat.add_zero]
        dsimp only
        by_cases he : (get_tasks_by_user_and_date db u.id
            (strftimeYmd (localToday u.tz - 1)) [Status.pending, Status.missed]).isEmpty
        · rw [if_pos he, if_pos he]
          rfl
        · rw [if_neg he, if_neg he]
          unfold send_makeup_review
          rw [hself u (List.mem_cons_self u l)]
          dsimp only
          rw [if_neg he]
          simp
      · have hne : v.id ≠ u.id := fun he => hnd'.1 u hm he.symm
        have hhead :
            (let yesterday := strftimeYmd (localToday v.tz - 1)
             let tasks := get_tasks_by_user_and_date db v.id yesterday
               [Status.pending, Status.missed]
             if tasks.isEmpty then [] else
               send_makeup_review db localToday v.id).count u.id = 0 := by
          dsimp only
          split
          · rfl
          · rw [List.count_eq_zero]
            intro hmem2
            exact hne ((send_makeup_mem db localToday v.id u.id hmem2).symm)
        rw [hhead, Nat.zero_add]
        exact ih (fun w hw => hself w (List.mem_cons_of_mem v hw)) hnd'.2 hm

/-- **C7**: at startup the recovery sweep sends, to each user (user ids being
unique), exactly one makeup notice when they have at least one task due on
their local yesterday with status pending/missed, and none otherwise. -/
theorem makeup_review_exactly_once (db : DBState) (localToday : List Char → Nat)
    (u : SUser) (hnd : (db.users.map SUser.id).Nodup) (hmem : u ∈ db.users) :
    (check_and_send_makeup_reviews db localToday).count u.id =
      if (get_tasks_by_user_and_date db u.id
            (strftimeYmd (localToday u.tz - 1)) [Status.pending, Status.missed]).isEmpty
      then 0 else 1 := by
  unfold check_and_send_makeup_reviews get_all_users
  apply makeup_aux db localToday u db.users ?_ hnd hmem
  intro v hv
  exact find_user_self db.users v hv hnd

def c7db : DBState :=
  { users :=
      [{ id := 1, chat_id := 11, tz := ['U'], evening_hour := 22, evening_min := 0
         morning_hour := some 8, morning_min := some 30
         awaiting_plans := false, skipped_tonight := false },
       { id := 2, chat_id := 12, tz := ['U'], evening_hour := 22, evening_min := 0
         morning_hour := none, morning_min := none
         awaiting_plans := false, skipped_tonight := false }]
    tasks :=
      [(1, { user_id := 1, content := ['a']
             due_date := ['2', '0', '2', '5', '-', '1', '1', '-', '0', '7']
             status := Status.pending, completed_at := none, canceled_at := none })]
    callbacks := [] }

/-- Witness for C7: with "today" = 2025-11-08 everywhere, the user holding a
pending task due 2025-11-07 gets exactly one notice and the user with no
such task gets none. -/
theorem makeup_review_exactly_once_witness :
    (check_and_send_makeup_reviews c7db (fun _ => 739563)).count 1 = 1 ∧
    (check_and_send_makeup_reviews c7db (fun _ => 739563)).count 2 = 0 :=
  ⟨(makeup_review_exactly_once c7db (fun _ => 739563)
      { id := 1, chat_id := 11, tz := ['U'], evening_hour := 22, evening_min := 0
        morning_hour := some 8, morning_min := some 30
        awaiting_plans := false, skipped_tonight := false }
      (by decide) (by decide)).trans (by decide),
   (makeup_review_exactly_once c7db (fun _ => 739563)
      { id := 2, chat_id := 12, tz := ['U'], evening_hour := 22, evening_min := 0
        morning_hour := none, morning_min := none
        awaiting_plans := false, skipped_tonight := false }
      (by decide) (by decide)).trans (by decide)⟩

/-! ## C9: calendar validity of generated due-date strings

Supporting facts: `fromOrdinal` yields a real calendar date with a 4-digit
year for ordinals between 1000-01-01 (364878) and 9999-12-31 (3652059), and
`strptime` accepts exactly what `strftime` prints for such dates. -/

lemma daysInYear_ge (y : Nat) : 365 ≤ daysInYear y := by
  unfold daysInYear
  split <;> omega

lemma dBY_succ (y : Nat) (hy : 1 ≤ y) :
    daysBeforeYear (y + 1) = daysBeforeYear y + daysInYear y := by
  unfold daysBeforeYear daysInYear
  by_cases hl : isLeap y
  · rw [if_pos hl]
    unfold isLeap at hl
    simp only [Bool.or_eq_true, Bool.and_eq_true, beq_iff_eq, bne_iff_ne] at hl
    omega
  · rw [if_neg hl]
    unfold isLeap at hl
    simp only [Bool.or_eq_true, Bool.and_eq_true, beq_iff_eq, bne_iff_ne] at hl
    push_neg at hl
    omega

lemma dBY_step (w : Nat) : daysBeforeYear w ≤ daysBeforeYear (w + 1) := by
  by_cases hw : 1 ≤ w
  · rw [dBY_succ w hw]
    omega
  · have hw0 : w = 0 := by omega
    subst hw0
    decide

lemma dBY_mono {y z : Nat} (h : y ≤ z) : daysBeforeYear y ≤ daysBeforeYear z := by
  induction z with
  | zero =>
      have : y = 0 := by omega
      subst this
      exact le_refl _
  | succ z ih =>
      rcases Nat.lt_or_ge y (z + 1) with hlt | hge
      · exact le_trans (ih (by omega)) (dBY_step z)
      · have : y = z + 1 := by omega
        subst this
        exact le_refl _

lemma yearLoop_spec (fuel : Nat) : ∀ (y n : Nat), 1 ≤ y → n < 365 * fuel + 365 →
    (yearLoop fuel y n).2 < daysInYear (yearLoop fuel y n).1 ∧
    daysBeforeYear (yearLoop fuel y n).1 + (yearLoop fuel y n).2 = daysBeforeYear y + n ∧
    1 ≤ (yearLoop fuel y n).1 := by
  induction fuel with
  | zero =>
      intro y n hy hn
      unfold yearLoop
      dsimp only
      refine ⟨?_, rfl, hy⟩
      have := daysInYear_ge y
      omega
  | succ fuel ih =>
      intro y n hy hn
      unfold yearLoop
      by_cases h : n < daysInYear y
      · rw [if_pos h]
        exact ⟨h, rfl, hy⟩
      · rw [if_neg h]
        have hd := daysInYear_ge y
        have hdy : daysInYear y ≤ 366 := by unfold daysInYear; split <;> omega
        have hrec := ih (y + 1) (n - daysInYear y) (by omega) (by omega)
        refine ⟨hrec.1, ?_, hrec.2.2⟩
        rw [hrec.2.1, dBY_succ y hy]
        omega

lemma monthFromDoy_spec (y doy : Nat) (h : doy < daysInYear y) :
    1 ≤ (monthFromDoy y doy).1 ∧ (monthFromDoy y doy).1 ≤ 12 ∧
    1 ≤ (monthFromDoy y doy).2 ∧
    (monthFromDoy y doy).2 ≤ daysInMonth y (monthFromDoy y doy).1 := by
  by_cases hl : isLeap y
  · rw [show daysInYear y = 366 by simp [daysInYear, hl]] at h
    unfold monthFromDoy
    simp only [daysBeforeMonth, hl]
    norm_num
    by_cases h1 : doy < 31
    · rw [if_pos h1]
      dsimp only
      refine ⟨by omega, by omega, by omega, ?_⟩
      rw [show daysInMonth y 1 = 31 from rfl]
      omega
    rw [if_neg h1]
    by_cases h2 : doy < 60
    · rw [if_pos h2]
      dsimp only
      refine ⟨by omega, by omega, by omega, ?_⟩
      rw [show daysInMonth y 2 = 29 by simp [daysInMonth, hl]]
      omega
    rw [if_neg h2]
    by_cases h3 : doy < 91
    · rw [if_pos h3]
      dsimp only
      refine ⟨by omega, by omega, by omega, ?_⟩
      rw [show daysInMonth y 3 = 31 from rfl]
      omega
    rw [if_neg h3]
    by_cases h4 : doy < 121
    · rw [if_pos h4]
      dsimp only
      refine ⟨by omega, by omega, by omega, ?_⟩
      rw [show daysInMonth y 4 = 30 from rfl]
      omega
    rw [if_neg h4]
    by_cases h5 : doy < 152
    · rw [if_pos h5]
      dsimp only
      refine ⟨by omega, by omega, by omega, ?_⟩
      rw [show daysInMonth y 5 = 31 from rfl]
      omega
    rw [if_neg h5]
    by_cases h6 : doy < 182
    · rw [if_pos h6]
      dsimp only
      refine ⟨by omega, by omega, by omega, ?_⟩
      rw [show daysInMonth y 6 = 30 from rfl]
      omega
    rw [if_neg h6]
    by_cases h7 : doy < 213
    · rw [if_pos h7]
      dsimp only
      refine ⟨by omega, by omega, by omega, ?_⟩
      rw [show daysInMonth y 7 = 31 from rfl]
      omega
    rw [if_neg h7]
    by_cases h8 : doy < 244
    · rw [if_pos h8]
      dsimp only
      refine ⟨by omega, by omega, by omega, ?_⟩
      rw [show daysInMonth y 8 = 31 from rfl]
      omega
    rw [if_neg h8]
    by_cases h9 : doy < 274
    · rw [if_pos h9]
      dsimp only
      refine ⟨by omega, by omega, by omega, ?_⟩
      rw [show daysInMonth y 9 = 30 from rfl]
      omega
    rw [if_neg h9]
    by_cases h10 : doy < 305
    · rw [if_pos h10]
      dsimp only
      refine ⟨by omega, by omega, by omega, ?_⟩
      rw [show daysInMonth y 10 = 31 from rfl]
      omega
    rw [if_neg h10]
    by_cases h11 : doy < 335
    · rw [if_pos h11]
      dsimp only
      refine ⟨by omega, by omega, by omega, ?_⟩
      rw [show daysInMonth y 11 = 30 from rfl]
      omega
    rw [if_neg h11]
    dsimp only
    refine ⟨by omega, by omega, by omega, ?_⟩
    rw [show daysInMonth y 12 = 31 from rfl]
    omega
  · rw [show daysInYear y = 365 by simp [daysInYear, hl]] at h
    unfold monthFromDoy
    simp only [daysBeforeMonth, hl]
    norm_num
    by_cases h1 : doy < 31
    · rw [if_pos h1]
      dsimp only
      refine ⟨by omega, by omega, by omega, ?_⟩
      rw [show daysInMonth y 1 = 31 from rfl]
      omega
    rw [if_neg h1]
    by_cases h2 : doy < 59
    · rw [if_pos h2]
      dsimp only
      refine ⟨by omega, by omega, by omega, ?_⟩
      rw [show daysInMonth y 2 = 28 by simp [daysInMonth, hl]]
      omega
    rw [if_neg h2]
    by_cases h3 : doy < 90
    · rw [if_pos h3]
      dsimp only
      refine ⟨by omega, by omega, by omega, ?_⟩
      rw [show daysInMonth y 3 = 31 from rfl]
      omega
    rw [if_neg h3]
    by_cases h4 : doy < 120
    · rw [if_pos h4]
      dsimp only
      refine ⟨by omega, by omega, by omega, ?_⟩
      rw [show daysInMonth y 4 = 30 from rfl]
      omega
    rw [if_neg h4]
    by_cases h5 : doy < 151
    · rw [if_pos h5]
      dsimp only
      refine ⟨by omega, by omega, by omega, ?_⟩
      rw [show daysInMonth y 5 = 31 from rfl]
      omega
    rw [if_neg h5]
    by_cases h6 : doy < 181
    · rw [if_pos h6]
      dsimp only
      refine ⟨by omega, by omega, by omega, ?_⟩
      rw [show daysInMonth y 6 = 30 from rfl]
      omega
    rw [if_neg h6]
    by_cases h7 : doy < 212
    · rw [if_pos h7]
      dsimp only
      refine ⟨by omega, by omega, by omega, ?_⟩
      rw [show daysInMonth y 7 = 31 from rfl]
      omega
    rw [if_neg h7]
    by_cases h8 : doy < 243
    · rw [if_pos h8]
      dsimp only
      refine ⟨by omega, by omega, by omega, ?_⟩
      rw [show daysInMonth y 8 = 31 from rfl]
      omega
    rw [if_neg h8]
    by_cases h9 : doy < 273
    · rw [if_pos h9]
      dsimp only
      refine ⟨by omega, by omega, by omega, ?_⟩
      rw [show daysInMonth y 9 = 30 from rfl]
      omega
    rw [if_neg h9]
    by_cases h10 : doy < 304
    · rw [if_pos h10]
      dsimp only
      refine ⟨by omega, by omega, by omega, ?_⟩
      rw [show daysInMonth y 10 = 31 from rfl]
      omega
    rw [if_neg h10]
    by_cases h11 : doy < 334
    · rw [if_pos h11]
      dsimp only
      refine ⟨by omega, by omega, by omega, ?_⟩
      rw [show daysInMonth y 11 = 30 from rfl]
      omega
    rw [if_neg h11]
    dsimp only
    refine ⟨by omega, by omega, by omega, ?_⟩
    rw [show daysInMonth y 12 = 31 from rfl]
    omega

lemma fromOrdinal_spec (n : Nat) (hlo : 364878 ≤ n) (hhi : n ≤ 3652059) :
    1000 ≤ (fromOrdinal n).1 ∧ (fromOrdinal n).1 ≤ 9999 ∧
    1 ≤ (fromOrdinal n).2.1 ∧ (fromOrdinal n).2.1 ≤ 12 ∧
    1 ≤ (fromOrdinal n).2.2 ∧
    (fromOrdinal n).2.2 ≤ daysInMonth (fromOrdinal n).1 (fromOrdinal n).2.1 := by
  have hys := yearLoop_spec n 1 (n - 1) (le_refl 1) (by omega)
  cases hyl : yearLoop n 1 (n - 1) with
  | mk y doy =>
      rw [hyl] at hys
      dsimp only at hys
      obtain ⟨hdoy, hinv, hy1⟩ := hys
      have hdBY1 : daysBeforeYear 1 = 0 := rfl
      rw [hdBY1] at hinv
      have hy9999 : y ≤ 9999 := by
        by_contra hc
        have h10000 : (10000 : Nat) ≤ y := by omega
        have := dBY_mono h10000
        have hval : daysBeforeYear 10000 = 3652059 := by norm_num [daysBeforeYear]
        omega
      have hy1000 : 1000 ≤ y := by
        by_contra hc
        have hsucc : daysBeforeYear (y + 1) = daysBeforeYear y + daysInYear y :=
          dBY_succ y hy1
        have hle : y + 1 ≤ 1000 := by omega
        have := dBY_mono hle
        have hval : daysBeforeYear 1000 = 364877 := by norm_num [daysBeforeYear]
        omega
      have hms := monthFromDoy_spec y doy hdoy
      cases hmd : monthFromDoy y doy with
      | mk m d =>
          rw [hmd] at hms
          dsimp only at hms
          unfold fromOrdinal
          rw [hyl]
          dsimp only
          rw [hmd]
          exact ⟨hy1000, hy9999, hms.1, hms.2.1, hms.2.2.1, hms.2.2.2⟩

lemma isDigitC_toDigit (k : Nat) (h : k < 10) : isDigitC (toDigit k) = true := by
  interval_cases k <;> rfl

lemma dval_toDigit (k : Nat) (h : k < 10) : dval (toDigit k) = k := by
  interval_cases k <;> rfl

lemma pyYear4_pad4 (y : Nat) (h : y ≤ 9999) (rest : List Char) :
    pyYear4 (pad4 y ++ rest) = some (y, rest) := by
  unfold pad4 pyYear4
  simp only [List.cons_append, List.nil_append]
  have e1 := isDigitC_toDigit (y / 1000) (by omega)
  have e2 := isDigitC_toDigit (y / 100 % 10) (by omega)
  have e3 := isDigitC_toDigit (y / 10 % 10) (by omega)
  have e4 := isDigitC_toDigit (y % 10) (by omega)
  have v1 := dval_toDigit (y / 1000) (by omega)
  have v2 := dval_toDigit (y / 100 % 10) (by omega)
  have v3 := dval_toDigit (y / 10 % 10) (by omega)
  have v4 := dval_toDigit (y % 10) (by omega)
  simp [e1, e2, e3, e4, v1, v2, v3, v4]
  omega

lemma natDigits_eq_pad4 (y : Nat) (h1 : 1000 ≤ y) (h2 : y ≤ 9999) :
    natDigits y = pad4 y := by
  unfold natDigits pad4
  rw [if_neg (by omega), if_neg (by omega), if_neg (by omega), if_pos (by omega)]

lemma pyMonth_pad2 (m : Nat) (h1 : 1 ≤ m) (h2 : m ≤ 12) (rest : List Char) :
    pyMonth (pad2 m ++ rest) = some (m, rest) := by
  interval_cases m <;> rfl

lemma pyDay_pad2 (d : Nat) (h1 : 1 ≤ d) (h2 : d ≤ 31) (rest : List Char) :
    pyDay (pad2 d ++ rest) = some (d, rest) := by
  interval_cases d <;> rfl

lemma daysInMonth_le (y m : Nat) : daysInMonth y m ≤ 31 := by
  unfold daysInMonth
  split
  · split <;> omega
  · split <;> omega

lemma strptime_fmt (y m d : Nat) (hy1 : 1000 ≤ y) (hy2 : y ≤ 9999)
    (hm1 : 1 ≤ m) (hm2 : m ≤ 12) (hd1 : 1 ≤ d) (hd2 : d ≤ daysInMonth y m) :
    strptime_ymd (fmtDate y m d) = some (y, m, d) := by
  unfold fmtDate strptime_ymd
  rw [natDigits_eq_pad4 y hy1 hy2, pyYear4_pad4 y (by omega)]
  dsimp only
  rw [if_pos rfl, pyMonth_pad2 m hm1 hm2]
  dsimp only
  rw [if_pos rfl]
  have hday := pyDay_pad2 d hd1 (le_trans hd2 (daysInMonth_le y m)) []
  rw [List.append_nil] at hday
  rw [hday]
  dsimp only
  rw [if_pos]
  simp only [List.isEmpty_nil, Bool.true_and, Bool.and_eq_true, decide_eq_true_eq]
  exact ⟨by omega, hd2⟩

lemma strftime_valid (n : Nat) (h1 : 364878 ≤ n) (h2 : n ≤ maxOrdinal) :
    isValidDueDate (strftimeYmd n) = true := by
  have hs := fromOrdinal_spec n h1 (by simpa [maxOrdinal] using h2)
  unfold strftimeYmd isValidDueDate
  cases hfo : fromOrdinal n with
  | mk y md =>
      cases md with
      | mk m d =>
          rw [hfo] at hs
          dsimp only at hs ⊢
          rw [strptime_fmt y m d hs.1 hs.2.1 hs.2.2.1 hs.2.2.2.1 hs.2.2.2.2.1
            hs.2.2.2.2.2]
          rfl

lemma findNextWeekKw_le (text : List Char) (w : Nat) (h : findNextWeekKw text = some w) :
    w ≤ 6 := by
  unfold findNextWeekKw at h
  obtain ⟨p, hf, hw⟩ := Option.map_eq_some'.mp h
  subst hw
  exact (show ∀ q ∈ WEEKDAY_KEYWORDS, q.2 ≤ 6 by decide) p (List.mem_of_find?_eq_some hf)

lemma findBareWeekdayKw_le (text : List Char) (w : Nat)
    (h : findBareWeekdayKw text = some w) : w ≤ 6 := by
  unfold findBareWeekdayKw at h
  obtain ⟨p, hf, hw⟩ := Option.map_eq_some'.mp h
  subst hw
  exact (show ∀ q ∈ WEEKDAY_KEYWORDS, q.2 ≤ 6 by decide) p (List.mem_of_find?_eq_some hf)

lemma get_next_week_weekday_bounds (today w : Nat) (hw : w ≤ 6) :
    today ≤ get_next_week_weekday today w ∧ get_next_week_weekday today w ≤ today + 13 := by
  unfold get_next_week_weekday pyWeekday
  omega

lemma get_next_weekday_bounds (today w : Nat) (hw : w ≤ 6) :
    today ≤ get_next_weekday today w ∧ get_next_weekday today w ≤ today + 13 := by
  unfold get_next_weekday pyWeekday
  dsimp only
  split_ifs <;> omega

/-- **C9 amended**: the stored due date is a valid calendar date string — one
the state machine's own `strptime` guard accepts — for every ingestion path
that does not go through an explicit-date literal (and whose result stays
within `datetime`'s range, the reference year being ≥ 1000), and for every
successful postponement whose new date keeps a 4-digit year; an explicit
literal, however, is stored exactly as matched, without calendar validation
(see the counterexample). -/
theorem due_date_validity :
    (∀ today text n, 364878 ≤ today →
        searchPos matchYMDAt text = none → searchPos matchMDAt text = none →
        searchPos (matchSepAt '/') text = none → searchPos (matchSepAt '.') text = none →
        searchPos (matchPlusAt 'd' 'D') text = some n → today + n ≤ maxOrdinal →
        isValidDueDate (parse_date today text).1 = true) ∧
    (∀ today text n, 364878 ≤ today →
        searchPos matchYMDAt text = none → searchPos matchMDAt text = none →
        searchPos (matchSepAt '/') text = none → searchPos (matchSepAt '.') text = none →
        searchPos (matchPlusAt 'd' 'D') text = none →
        searchPos (matchPlusAt 'w' 'W') text = some n → today + 7 * n ≤ maxOrdinal →
        isValidDueDate (parse_date today text).1 = true) ∧
    (∀ today text, 364878 ≤ today → today + 13 ≤ maxOrdinal →
        searchPos matchYMDAt text = none → searchPos matchMDAt text = none →
        searchPos (matchSepAt '/') text = none → searchPos (matchSepAt '.') text = none →
        searchPos (matchPlusAt 'd' 'D') text = none →
        searchPos (matchPlusAt 'w' 'W') text = none →
        isValidDueDate (parse_date today text).1 = true) ∧
    (∀ now db tid days s, (postpone_task now db tid days).1 = some s →
        ∃ k, 1 ≤ k ∧ k ≤ maxOrdinal ∧ s = strftimeYmd k) ∧
    (∀ k, 364878 ≤ k → k ≤ maxOrdinal → isValidDueDate (strftimeYmd k) = true) := by
  refine ⟨?_, ?_, ?_, ?_, ?_⟩
  · intro today text n htoday h1 h2 h3 h4 h5 hbound
    unfold parse_date
    rw [h1, h2, h3, h4, h5]
    exact strftime_valid (today + n) (by omega) hbound
  · intro today text n htoday h1 h2 h3 h4 h5 h6 hbound
    unfold parse_date
    rw [h1, h2, h3, h4, h5, h6]
    exact strftime_valid (today + 7 * n) (by omega) hbound
  · intro today text htoday hbound h1 h2 h3 h4 h5 h6
    unfold parse_date
    rw [h1, h2, h3, h4, h5, h6]
    cases hk : findNextWeekKw text with
    | some w =>
        dsimp only
        have hb := get_next_week_weekday_bounds today w (findNextWeekKw_le text w hk)
        exact strftime_valid _ (by omega) (by omega)
    | none =>
        dsimp only
        cases hbk : findBareWeekdayKw text with
        | some w =>
            dsimp only
            have hb := get_next_weekday_bounds today w (findBareWeekdayKw_le text w hbk)
            exact strftime_valid _ (by omega) (by omega)
        | none =>
            dsimp only
            split_ifs
            · exact strftime_valid today (by omega) (by omega)
            · exact strftime_valid (today + 1) (by omega) (by omega)
            · exact strftime_valid (today + 2) (by omega) (by omega)
            · exact strftime_valid (today + 1) (by omega) (by omega)
  · intro now db tid days s h
    unfold postpone_task at h
    cases hget : get_task_by_id db tid with
    | none => rw [hget] at h; exact absurd h (by simp)
    | some t =>
        rw [hget] at h
        dsimp only at h
        cases hord : strptimeToOrd t.due_date with
        | none => rw [hord] at h; exact absurd h (by simp)
        | some ord =>
            rw [hord] at h
            dsimp only at h
            by_cases hr : 1 ≤ (ord : Int) + days ∧ (ord : Int) + days ≤ (maxOrdinal : Int)
            · rw [if_pos hr] at h
              dsimp only at h
              rw [Option.some.injEq] at h
              refine ⟨((ord : Int) + days).toNat, by omega, ?_, h.symm⟩
              have := hr.2
              simp only [maxOrdinal] at this ⊢
              omega
            · rw [if_neg hr] at h
              exact absurd h (by simp)
  · exact fun k h1 h2 => strftime_valid k h1 h2

/-- **C9 counterexample**: the line "99-99" matches the `MM-DD` explicit
pattern and is stored as `2025-99-99` (reference year 2025), which is not a
calendar date — `strptime`, the code's own validity notion, rejects it.  A
task created from this line carries the invalid due date. -/
theorem invalid_due_date_stored :
    (parse_date 739563 ['9', '9', '-', '9', '9']).1 =
      ['2', '0', '2', '5', '-', '9', '9', '-', '9', '9'] ∧
    isValidDueDate ['2', '0', '2', '5', '-', '9', '9', '-', '9', '9'] = false ∧
    ((create_task { users := [], tasks := [], callbacks := [] } 1
        ['9', '9', '-', '9', '9']
        (parse_date 739563 ['9', '9', '-', '9', '9']).1).2.tasks.map
      fun p => p.2.due_date) = [['2', '0', '2', '5', '-', '9', '9', '-', '9', '9']] := by
  decide

def c9db : DBState :=
  { users := []
    tasks :=
      [(1, { user_id := 1, content := ['a']
             due_date := ['2', '0', '2', '5', '-', '1', '1', '-', '0', '8']
             status := Status.pending, completed_at := none, canceled_at := none })]
    callbacks := [] }

/-- Witness for C9 (amended): a no-keyword line resolves to a valid date; a
concrete postponement stores a `strftime` rendering of an in-range ordinal;
and such renderings are valid. -/
theorem due_date_validity_witness :
    isValidDueDate (parse_date 739563 ['h', 'i']).1 = true ∧
    (∃ k, 1 ≤ k ∧ k ≤ maxOrdinal ∧
      (['2', '0', '2', '5', '-', '1', '1', '-', '1', '0'] : List Char) = strftimeYmd k) ∧
    isValidDueDate (strftimeYmd 739565) = true :=
  ⟨due_date_validity.2.2.1 739563 ['h', 'i'] (by decide) (by decide) (by decide)
      (by decide) (by decide) (by decide) (by decide) (by decide),
   due_date_validity.2.2.2.1 0 c9db 1 2
      ['2', '0', '2', '5', '-', '1', '1', '-', '1', '0'] (by decide),
   due_date_validity.2.2.2.2 739565 (by decide) (by decide)⟩

end PlanBot
